import Mathlib

/-
Verification of the optl telemetry subsystem: a shallow embedding of the
provider-lifecycle orchestrator (internal/telemetry provider file), the
multi-exporter composition (internal/telemetry/trace.go), and the
structured-concurrency combinators (internal/telemetry/context.go),
together with theorems settling the specified properties.

Modelling conventions:
- a Go `error` value is `Option ε` (`none` is Go `nil`), with `ε` an
  abstract error type;
- side effects relevant to the properties (which sink or sub-provider had
  which method called, in which order) are returned as explicit event
  lists, in execution order;
- goroutine fan-outs are modelled under the deterministic schedule in
  which tasks complete in submission order; the errgroup primitive is
  modelled by a state record (tasks invoked so far, first captured error),
  which is one admissible schedule of the Go code and the one its
  deterministic observable claims quantify over.
-/

namespace Optl

/-- Event recorded against the numbered sink of a multi exporter: an
ExportSpans call or a Shutdown call on the sink at the given index. -/
inductive TelEvent where
  | exportCall (i : Nat)
  | shutdownCall (i : Nat)
  deriving DecidableEq, Repr

/-- Behaviour of one wrapped span exporter on the batch under
consideration: the result its ExportSpans returns for that batch, and the
result its Shutdown returns. -/
structure SpanExporter (ε : Type) where
  exportResult : Option ε
  shutdownResult : Option ε
  deriving DecidableEq, Repr

/-- Loop of multiSpanExporter.ExportSpans (trace.go lines 210-217) starting
at sink index i: call each sink's ExportSpans in order and return the first
error, leaving the remaining sinks uncalled; returns the event list and the
returned error. -/
def multiSpanExporter.exportSpansFrom {ε : Type} (i : Nat) :
    List (SpanExporter ε) → List TelEvent × Option ε
  | [] => ([], none)
  | x :: rest =>
    match x.exportResult with
    | some e => ([TelEvent.exportCall i], some e)
    | none =>
      let r := multiSpanExporter.exportSpansFrom (i + 1) rest
      (TelEvent.exportCall i :: r.1, r.2)

/-- multiSpanExporter.ExportSpans (trace.go lines 210-217): offer the batch
to each sink in registration order, fail fast on the first error. -/
def multiSpanExporter.ExportSpans {ε : Type} (sinks : List (SpanExporter ε)) :
    List TelEvent × Option ε :=
  multiSpanExporter.exportSpansFrom 0 sinks

/-- Loop of multiSpanExporter.Shutdown (trace.go lines 219-230) starting at
sink index i: call every sink's Shutdown and collect every error, in
order. -/
def multiSpanExporter.shutdownFrom {ε : Type} (i : Nat) :
    List (SpanExporter ε) → List TelEvent × List ε
  | [] => ([], [])
  | x :: rest =>
    let r := multiSpanExporter.shutdownFrom (i + 1) rest
    (TelEvent.shutdownCall i :: r.1,
      match x.shutdownResult with
      | some e => e :: r.2
      | none => r.2)

/-- multiSpanExporter.Shutdown (trace.go lines 219-230): shut every sink
down regardless of earlier failures; return the aggregate error (the
non-empty list of collected errors) or nil. -/
def multiSpanExporter.Shutdown {ε : Type} (sinks : List (SpanExporter ε)) :
    List TelEvent × Option (List ε) :=
  let r := multiSpanExporter.shutdownFrom 0 sinks
  (r.1, if r.2.isEmpty then none else some r.2)

/-- Teardown event of the provider orchestrator: which sub-provider had its
Shutdown invoked. -/
inductive ProvEvent where
  | metricShutdown
  | traceShutdown
  | logShutdown
  deriving DecidableEq, Repr

/-- The Provider struct of the telemetry package: each sub-provider field
is `none` for a nil pointer, or `some r` for a constructed sub-provider
whose Shutdown returns r. -/
structure Provider (ε : Type) where
  metricProvider : Option (Option ε)
  traceProvider : Option (Option ε)
  logProvider : Option (Option ε)
  deriving DecidableEq, Repr

/-- Provider.Shutdown: shut down metrics, then trace, then logging, each
only if its pointer is non-nil, collecting every error; return the
aggregate (non-empty error list) or nil. Returns the teardown event list
and the returned error. The Go method reads only fields that are never
written after construction and writes nothing, so it is a pure function of
the provider value. -/
def Provider.Shutdown {ε : Type} (p : Provider ε) : List ProvEvent × Option (List ε) :=
  let metricStep : List ProvEvent × List ε :=
    match p.metricProvider with
    | none => ([], [])
    | some r => ([ProvEvent.metricShutdown], r.toList)
  let traceStep : List ProvEvent × List ε :=
    match p.traceProvider with
    | none => ([], [])
    | some r => ([ProvEvent.traceShutdown], r.toList)
  let logStep : List ProvEvent × List ε :=
    match p.logProvider with
    | none => ([], [])
    | some r => ([ProvEvent.logShutdown], r.toList)
  let errs := metricStep.2 ++ traceStep.2 ++ logStep.2
  (metricStep.1 ++ traceStep.1 ++ logStep.1, if errs.isEmpty then none else some errs)

/-- Two successive calls of Provider.Shutdown on the same provider. The
Go method mutates no state (no field is cleared and no shut-down flag
exists), so the second call re-executes the identical teardown code over
the same three pointers; the wrapped SDK sub-providers are stateful,
however, so the result each returns to its second Shutdown call may
differ from its first. The two arguments record the per-call results:
`first` holds each sub-provider's first-call result and `second` its
second-call result, with the same fields present in both (the pointers do
not change between calls). The value is the combined event list of both
calls together with the first and the second call's returned error. -/
def Provider.shutdownTwice {ε : Type} (first second : Provider ε) :
    List ProvEvent × Option (List ε) × Option (List ε) :=
  let r1 := Provider.Shutdown first
  let r2 := Provider.Shutdown second
  (r1.1 ++ r2.1, r1.2, r2.2)

/-- Environment a NewProvider call runs in: the outcome of SetupLogging,
SetupTracing and SetupMetrics. An `Except.error e` is a failed setup; an
`Except.ok r` is a successfully constructed sub-provider whose own
Shutdown returns r. -/
structure SetupEnv (ε : Type) where
  logSetup : Except ε (Option ε)
  traceSetup : Except ε (Option ε)
  metricSetup : Except ε (Option ε)

/-- NewProvider: set up logging first, then tracing, then, when metrics
are enabled, metrics. On tracing failure the log sub-provider is shut down
(its result is discarded) and the tracing error is returned. On metrics
failure the source calls logProvider.Shutdown() and then
traceProvider.Shutdown(ctx), in that order, discards both results, and
returns the metric error. Returns the teardown event list and either the
first setup error or the constructed provider. -/
def NewProvider {ε : Type} (enableMetrics : Bool) (env : SetupEnv ε) :
    List ProvEvent × Except ε (Provider ε) :=
  match env.logSetup with
  | Except.error e => ([], Except.error e)
  | Except.ok logP =>
    match env.traceSetup with
    | Except.error e => ([ProvEvent.logShutdown], Except.error e)
    | Except.ok traceP =>
      if enableMetrics then
        match env.metricSetup with
        | Except.error e =>
            ([ProvEvent.logShutdown, ProvEvent.traceShutdown], Except.error e)
        | Except.ok metricP =>
            ([], Except.ok { metricProvider := some metricP,
                             traceProvider := some traceP,
                             logProvider := some logP })
      else
        ([], Except.ok { metricProvider := none,
                         traceProvider := some traceP,
                         logProvider := some logP })

/-- State of an errgroup-style task group under the deterministic
submission-order schedule: the tasks invoked so far, in order, and the
first error captured (errgroup retains only the first error; later ones
are dropped). -/
structure Group (α ε : Type) where
  invoked : List α
  firstErr : Option ε
  deriving DecidableEq, Repr

/-- One g.Go call: the task function is always invoked (errgroup launches
every submitted task); its result is retained only if no earlier task
already captured an error. -/
def Group.go {α ε : Type} (g : Group α ε) (item : α) (r : Option ε) : Group α ε :=
  { invoked := g.invoked ++ [item],
    firstErr :=
      match g.firstErr with
      | some e => some e
      | none => r }

/-- g.Wait: the first captured error, or nil. -/
def Group.wait {α ε : Type} (g : Group α ε) : Option ε :=
  g.firstErr

/-- Submit one task per item to the group, in item order. -/
def runGroup {α ε : Type} (g : Group α ε) (items : List α) (fn : α → Option ε) : Group α ε :=
  match items with
  | [] => g
  | i :: rest => runGroup (g.go i (fn i)) rest fn

/-- GoForEach (context.go lines 113-124): launch one task per item in a
fresh group and wait; the per-item function receives the group context. -/
def GoForEach {α ε : Type} (items : List α) (fn : α → Option ε) : Group α ε :=
  runGroup { invoked := [], firstErr := none } items fn

/-- Outcome of a unit of work handed to WithSpan: it returns nil, returns
an error, or panics. -/
inductive Outcome (ε : Type) where
  | ok
  | fail (e : ε)
  | panicked
  deriving DecidableEq, Repr

/-- Observable event of WithSpan: span started or ended (scope opened or
closed), error recorded onto the span, span status set to error, and the
debug or error log lines. -/
inductive SpanEvent (ε : Type) where
  | spanStart (name : String)
  | logStarting (name : String)
  | recordErr (e : ε)
  | statusError
  | logSpanError (name : String)
  | logCompleted (name : String)
  | spanEnd (name : String)
  deriving DecidableEq, Repr

/-- WithSpan (context.go lines 21-45): start a span, defer span.End, log
the starting line, run the work; on error record it on the span, set the
error status and log it, else log completion; return the work's outcome
unchanged. The deferred span.End runs on every exit path, including the
panic path, where it runs before the panic propagates. -/
def WithSpan {ε : Type} (name : String) (work : Outcome ε) :
    List (SpanEvent ε) × Outcome ε :=
  match work with
  | Outcome.ok =>
      ([SpanEvent.spanStart name, SpanEvent.logStarting name,
        SpanEvent.logCompleted name, SpanEvent.spanEnd name], Outcome.ok)
  | Outcome.fail e =>
      ([SpanEvent.spanStart name, SpanEvent.logStarting name,
        SpanEvent.recordErr e, SpanEvent.statusError,
        SpanEvent.logSpanError name, SpanEvent.spanEnd name], Outcome.fail e)
  | Outcome.panicked =>
      ([SpanEvent.spanStart name, SpanEvent.logStarting name,
        SpanEvent.spanEnd name], Outcome.panicked)

/-- Injection of a Go error value into a work outcome. -/
def outcomeOf {ε : Type} : Option ε → Outcome ε
  | none => Outcome.ok
  | some e => Outcome.fail e

/-- Error value a combinator receives back from a non-panicking outcome. -/
def errOf {ε : Type} : Outcome ε → Option ε
  | Outcome.ok => none
  | Outcome.fail e => some e
  | Outcome.panicked => none

/-- GoWithLimit (context.go lines 144-156): the concurrency bound is
passed straight to errgroup SetLimit with no validation. A negative bound
means no limit; a bound of zero makes every g.Go call block forever, so
with a non-empty item list the call never returns, modelled as `none`. In
every returning case the group runs all items under the deterministic
schedule. -/
def GoWithLimit {α ε : Type} (concurrency : Int) (items : List α)
    (fn : α → Option ε) : Option (Group α ε) :=
  if concurrency = 0 ∧ items.isEmpty = false then none
  else some (runGroup { invoked := [], firstErr := none } items fn)

/-- GoWithLimitAndSpan (context.go lines 159-174): same unvalidated
SetLimit call as GoWithLimit, with each item's function wrapped in
WithSpan under the name base-index (the source formats the span name from
the base name and the item index). -/
def GoWithLimitAndSpan {α ε : Type} (name : String) (concurrency : Int)
    (items : List α) (fn : α → Option ε) : Option (Group (Nat × α) ε) :=
  if concurrency = 0 ∧ items.isEmpty = false then none
  else some (runGroup { invoked := [], firstErr := none } items.enum
    (fun p => errOf (WithSpan (name ++ "-" ++ toString p.1) (outcomeOf (fn p.2))).2))

/-- Event of TraceProvider.Shutdown: the wrapped SDK tracer provider's
Shutdown call, or the stored exporter cleanup chain call. -/
inductive TPEvent where
  | sdkShutdownCall
  | cleanupCall
  deriving DecidableEq, Repr

/-- The TraceProvider struct (trace.go lines 27-30): the result the
wrapped SDK provider's Shutdown returns, and the cleanup field, `none` for
a nil cleanup function or `some r` for a stored cleanup chain returning
r. -/
structure TraceProvider (ε : Type) where
  providerShutdown : Option ε
  cleanup : Option (Option ε)
  deriving DecidableEq, Repr

/-- TraceProvider.Shutdown (trace.go lines 186-196): shut the SDK provider
down; on error return it at once without touching cleanup; otherwise run
cleanup when non-nil and return its result. -/
def TraceProvider.Shutdown {ε : Type} (tp : TraceProvider ε) :
    List TPEvent × Option ε :=
  match tp.providerShutdown with
  | some e => ([TPEvent.sdkShutdownCall], some e)
  | none =>
    match tp.cleanup with
    | some r => ([TPEvent.sdkShutdownCall, TPEvent.cleanupCall], r)
    | none => ([TPEvent.sdkShutdownCall], none)

/-! Helper lemmas about the multi-exporter loops. -/

theorem exportSpansFrom_all_ok {ε : Type} (sinks : List (SpanExporter ε)) :
    ∀ i : Nat, (∀ x ∈ sinks, x.exportResult = none) →
      multiSpanExporter.exportSpansFrom i sinks
        = ((List.range' i sinks.length).map TelEvent.exportCall, none) := by
  induction sinks with
  | nil =>
    intro i _
    simp [multiSpanExporter.exportSpansFrom]
  | cons x rest ih =>
    intro i h
    have hx : x.exportResult = none := h x (by simp)
    have hr := ih (i + 1) (fun y hy => h y (by simp [hy]))
    simp [multiSpanExporter.exportSpansFrom, hx, hr, List.range'_succ]

theorem exportSpansFrom_first_fail {ε : Type} (pre : List (SpanExporter ε))
    (bad : SpanExporter ε) (post : List (SpanExporter ε)) (e : ε)
    (hbad : bad.exportResult = some e) :
    ∀ i : Nat, (∀ x ∈ pre, x.exportResult = none) →
      multiSpanExporter.exportSpansFrom i (pre ++ bad :: post)
        = ((List.range' i (pre.length + 1)).map TelEvent.exportCall, some e) := by
  induction pre with
  | nil =>
    intro i _
    simp [multiSpanExporter.exportSpansFrom, hbad, List.range'_succ]
  | cons x rest ih =>
    intro i h
    have hx : x.exportResult = none := h x (by simp)
    have hr := ih (i + 1) (fun y hy => h y (by simp [hy]))
    simp [multiSpanExporter.exportSpansFrom, hx, hr, List.range'_succ]

theorem exportSpansFrom_eq_none_iff {ε : Type} (sinks : List (SpanExporter ε)) :
    ∀ i : Nat, ((multiSpanExporter.exportSpansFrom i sinks).2 = none
      ↔ ∀ x ∈ sinks, x.exportResult = none) := by
  induction sinks with
  | nil =>
    intro i
    simp [multiSpanExporter.exportSpansFrom]
  | cons x rest ih =>
    intro i
    cases hx : x.exportResult with
    | some e => simp [multiSpanExporter.exportSpansFrom, hx]
    | none => simp [multiSpanExporter.exportSpansFrom, hx, ih (i + 1)]

theorem shutdownFrom_spec {ε : Type} (sinks : List (SpanExporter ε)) :
    ∀ i : Nat, multiSpanExporter.shutdownFrom i sinks
      = ((List.range' i sinks.length).map TelEvent.shutdownCall,
         sinks.filterMap SpanExporter.shutdownResult) := by
  induction sinks with
  | nil =>
    intro i
    simp [multiSpanExporter.shutdownFrom]
  | cons x rest ih =>
    intro i
    cases hx : x.shutdownResult with
    | some e =>
      simp [multiSpanExporter.shutdownFrom, hx, ih (i + 1), List.range'_succ,
        List.filterMap_cons]
    | none =>
      simp [multiSpanExporter.shutdownFrom, hx, ih (i + 1), List.range'_succ,
        List.filterMap_cons]

/-- C4: for a multi-exporter composition over an ordered list of sinks,
ExportSpans offers the batch to each sink in registration order; it
returns nil when every sink succeeds; and at the first sink that returns
an error it stops, returning that first error, with the later sinks'
export never invoked for that batch. -/
theorem exportSpans_fail_fast {ε : Type}
    (sinks pre post : List (SpanExporter ε)) (bad : SpanExporter ε) (e : ε)
    (hall : ∀ x ∈ sinks, x.exportResult = none)
    (hpre : ∀ x ∈ pre, x.exportResult = none)
    (hbad : bad.exportResult = some e) :
    multiSpanExporter.ExportSpans sinks
        = ((List.range sinks.length).map TelEvent.exportCall, none) ∧
    multiSpanExporter.ExportSpans (pre ++ bad :: post)
        = ((List.range (pre.length + 1)).map TelEvent.exportCall, some e) ∧
    ∀ j : Nat, pre.length < j →
      TelEvent.exportCall j ∉ (multiSpanExporter.ExportSpans (pre ++ bad :: post)).1 := by
  have h1 := exportSpansFrom_all_ok sinks 0 hall
  have h2 := exportSpansFrom_first_fail pre bad post e hbad 0 hpre
  refine ⟨?_, ?_, ?_⟩
  · rw [multiSpanExporter.ExportSpans, h1, List.range_eq_range']
  · rw [multiSpanExporter.ExportSpans, h2, List.range_eq_range']
  · intro j hj hmem
    rw [multiSpanExporter.ExportSpans, h2] at hmem
    simp only [List.mem_map, List.mem_range'_1, TelEvent.exportCall.injEq] at hmem
    omega

/-- C4 witness: a concrete three-sink set whose middle sink fails on
export, instantiating the fail-fast theorem. -/
theorem exportSpans_fail_fast_witness :
    multiSpanExporter.ExportSpans
        ([({ exportResult := none, shutdownResult := none } : SpanExporter Nat)] ++
          ({ exportResult := some 5, shutdownResult := none } : SpanExporter Nat) ::
          [({ exportResult := none, shutdownResult := none } : SpanExporter Nat)])
      = ((List.range
            ([({ exportResult := none, shutdownResult := none } : SpanExporter Nat)].length
              + 1)).map TelEvent.exportCall, some 5) :=
  (exportSpans_fail_fast []
    [({ exportResult := none, shutdownResult := none } : SpanExporter Nat)]
    [({ exportResult := none, shutdownResult := none } : SpanExporter Nat)]
    { exportResult := some 5, shutdownResult := none } 5
    (by decide) (by decide) rfl).2.1

/-- C5 counterexample: with two sinks where the first fails on export, the
second member is never offered the batch, refuting the claim that every
member sink is offered every batch with no member skipped. -/
theorem exporterSet_offer_all_cex :
    (multiSpanExporter.ExportSpans
        [({ exportResult := some 3, shutdownResult := none } : SpanExporter Nat),
         { exportResult := none, shutdownResult := none }]).1
      = [TelEvent.exportCall 0] ∧
    TelEvent.exportCall 1 ∉
      (multiSpanExporter.ExportSpans
        [({ exportResult := some 3, shutdownResult := none } : SpanExporter Nat),
         { exportResult := none, shutdownResult := none }]).1 ∧
    (multiSpanExporter.ExportSpans
        [({ exportResult := some 3, shutdownResult := none } : SpanExporter Nat),
         { exportResult := none, shutdownResult := none }]).2 = some 3 := by
  decide

/-- C5 amended: every batch is offered to the members in registration
order only up to and including the first failing member; the set's send
fails exactly when at least one member fails, the first failing member's
error is propagated, and the members after the first failure are skipped
for that batch. -/
theorem exporterSet_send_invariant {ε : Type}
    (sinks pre post : List (SpanExporter ε)) (bad : SpanExporter ε) (e : ε)
    (hpre : ∀ x ∈ pre, x.exportResult = none)
    (hbad : bad.exportResult = some e) :
    ((multiSpanExporter.ExportSpans sinks).2 = none
        ↔ ∀ x ∈ sinks, x.exportResult = none) ∧
    multiSpanExporter.ExportSpans (pre ++ bad :: post)
        = ((List.range (pre.length + 1)).map TelEvent.exportCall, some e) := by
  refine ⟨exportSpansFrom_eq_none_iff sinks 0, ?_⟩
  rw [multiSpanExporter.ExportSpans, exportSpansFrom_first_fail pre bad post e hbad 0 hpre,
    List.range_eq_range']

/-- C5 amended witness: a concrete two-sink set whose first member fails,
instantiating the send invariant. -/
theorem exporterSet_send_invariant_witness :
    ((multiSpanExporter.ExportSpans
        [({ exportResult := none, shutdownResult := none } : SpanExporter Nat)]).2 = none
      ↔ ∀ x ∈ [({ exportResult := none, shutdownResult := none } : SpanExporter Nat)],
          x.exportResult = none) ∧
    multiSpanExporter.ExportSpans
        ([] ++ ({ exportResult := some 9, shutdownResult := none } : SpanExporter Nat) ::
          [({ exportResult := none, shutdownResult := none } : SpanExporter Nat)])
      = ((List.range ((List.length (α := SpanExporter Nat) []) + 1)).map
          TelEvent.exportCall, some 9) :=
  exporterSet_send_invariant
    [({ exportResult := none, shutdownResult := none } : SpanExporter Nat)]
    [] [({ exportResult := none, shutdownResult := none } : SpanExporter Nat)]
    { exportResult := some 9, shutdownResult := none } 9 (by decide) rfl

/-- C6: Shutdown of the multi-exporter composition invokes Shutdown on
every wrapped sink in registration order regardless of earlier failures,
collects every resulting error, and returns the aggregate listing each
failure when the collection is non-empty, else nil. -/
theorem multiExporter_shutdown_fail_safe {ε : Type} (sinks : List (SpanExporter ε)) :
    (multiSpanExporter.Shutdown sinks).1
        = (List.range sinks.length).map TelEvent.shutdownCall ∧
    (multiSpanExporter.Shutdown sinks).2
        = (if (sinks.filterMap SpanExporter.shutdownResult).isEmpty then none
           else some (sinks.filterMap SpanExporter.shutdownResult)) ∧
    ((multiSpanExporter.Shutdown sinks).2 = none
        ↔ ∀ x ∈ sinks, x.shutdownResult = none) ∧
    ∀ errs, (multiSpanExporter.Shutdown sinks).2 = some errs →
      ∀ x ∈ sinks, ∀ e, x.shutdownResult = some e → e ∈ errs := by
  have h := shutdownFrom_spec sinks 0
  have hfst : (multiSpanExporter.Shutdown sinks).1
      = (List.range sinks.length).map TelEvent.shutdownCall := by
    rw [multiSpanExporter.Shutdown, h, List.range_eq_range']
  have hsnd : (multiSpanExporter.Shutdown sinks).2
      = (if (sinks.filterMap SpanExporter.shutdownResult).isEmpty then none
         else some (sinks.filterMap SpanExporter.shutdownResult)) := by
    rw [multiSpanExporter.Shutdown, h]
  refine ⟨hfst, hsnd, ?_, ?_⟩
  · rw [hsnd]
    by_cases hemp : (sinks.filterMap SpanExporter.shutdownResult).isEmpty
    · simp only [hemp, if_pos]
      rw [List.isEmpty_iff, List.filterMap_eq_nil_iff] at hemp
      simpa using hemp
    · simp only [hemp, if_neg, Bool.false_eq_true, not_false_iff]
      constructor
      · intro hc
        simp at hc
      · intro hall
        exfalso
        apply hemp
        rw [List.isEmpty_iff, List.filterMap_eq_nil_iff]
        intro a ha
        exact hall a ha
  · intro errs herrs x hx e he
    rw [hsnd] at herrs
    by_cases hemp : (sinks.filterMap SpanExporter.shutdownResult).isEmpty
    · simp [hemp] at herrs
    · simp only [hemp, if_neg, Bool.false_eq_true, not_false_iff,
        Option.some.injEq] at herrs
      subst herrs
      rw [List.mem_filterMap]
      exact ⟨x, hx, he⟩

/-- C6 witness: a concrete three-sink set whose first member fails on
Shutdown, instantiating the fail-safe aggregation theorem. -/
theorem multiExporter_shutdown_fail_safe_witness :
    (multiSpanExporter.Shutdown
        [({ exportResult := none, shutdownResult := some 1 } : SpanExporter Nat),
         { exportResult := none, shutdownResult := none },
         { exportResult := none, shutdownResult := none }]).1
      = (List.range 3).map TelEvent.shutdownCall ∧
    (1 : Nat) ∈ [(1 : Nat)] :=
  ⟨(multiExporter_shutdown_fail_safe
      [({ exportResult := none, shutdownResult := some 1 } : SpanExporter Nat),
       { exportResult := none, shutdownResult := none },
       { exportResult := none, shutdownResult := none }]).1,
   (multiExporter_shutdown_fail_safe
      [({ exportResult := none, shutdownResult := some 1 } : SpanExporter Nat),
       { exportResult := none, shutdownResult := none },
       { exportResult := none, shutdownResult := none }]).2.2.2
     [1] (by decide)
     { exportResult := none, shutdownResult := some 1 } (by decide) 1 rfl⟩

/-- C1: Shutdown on a provider that NewProvider successfully constructed
with metrics enabled tears down the metric sub-provider first, then the
trace sub-provider, then the log sub-provider, attempts all three
teardowns even when an earlier one fails (all three events always occur,
in that order), and returns the aggregate error listing every failure
encountered, nil exactly when all three succeeded. -/
theorem provider_shutdown_order {ε : Type} (env : SetupEnv ε) (p : Provider ε)
    (h : (NewProvider true env).2 = Except.ok p) :
    ∃ m t l : Option ε,
      p.metricProvider = some m ∧ p.traceProvider = some t ∧ p.logProvider = some l ∧
      Provider.Shutdown p
        = ([ProvEvent.metricShutdown, ProvEvent.traceShutdown, ProvEvent.logShutdown],
           if (m.toList ++ t.toList ++ l.toList).isEmpty then none
           else some (m.toList ++ t.toList ++ l.toList)) ∧
      ((Provider.Shutdown p).2 = none ↔ m = none ∧ t = none ∧ l = none) := by
  obtain ⟨ls, ts, ms⟩ := env
  cases ls with
  | error e => simp [NewProvider] at h
  | ok logP =>
    cases ts with
    | error e => simp [NewProvider] at h
    | ok traceP =>
      cases ms with
      | error e => simp [NewProvider] at h
      | ok metricP =>
        simp only [NewProvider, if_true] at h
        cases h
        refine ⟨metricP, traceP, logP, rfl, rfl, rfl, ?_, ?_⟩
        · simp [Provider.Shutdown]
        · cases metricP <;> cases traceP <;> cases logP <;> simp [Provider.Shutdown]

/-- C1 witness: a provider constructed with metrics enabled from an
environment in which every setup succeeds, instantiating the teardown
order theorem. -/
theorem provider_shutdown_order_witness :
    ∃ m t l : Option Nat,
      (⟨some none, some none, some none⟩ : Provider Nat).metricProvider = some m ∧
      (⟨some none, some none, some none⟩ : Provider Nat).traceProvider = some t ∧
      (⟨some none, some none, some none⟩ : Provider Nat).logProvider = some l ∧
      Provider.Shutdown (⟨some none, some none, some none⟩ : Provider Nat)
        = ([ProvEvent.metricShutdown, ProvEvent.traceShutdown, ProvEvent.logShutdown],
           if (m.toList ++ t.toList ++ l.toList).isEmpty then none
           else some (m.toList ++ t.toList ++ l.toList)) ∧
      ((Provider.Shutdown (⟨some none, some none, some none⟩ : Provider Nat)).2 = none
        ↔ m = none ∧ t = none ∧ l = none) :=
  provider_shutdown_order
    { logSetup := Except.ok none, traceSetup := Except.ok none,
      metricSetup := Except.ok none }
    ⟨some none, some none, some none⟩ rfl

/-- C2 counterexample: when metrics are enabled and metric setup fails,
NewProvider shuts the log sub-provider down first and the trace
sub-provider second, the reverse of the order the claim states. -/
theorem newProvider_metric_failure_order_cex :
    NewProvider true ({ logSetup := Except.ok none, traceSetup := Except.ok none,
                        metricSetup := Except.error 7 } : SetupEnv Nat)
      = ([ProvEvent.logShutdown, ProvEvent.traceShutdown], Except.error 7) ∧
    ([ProvEvent.logShutdown, ProvEvent.traceShutdown]
      ≠ [ProvEvent.traceShutdown, ProvEvent.logShutdown]) :=
  ⟨rfl, by decide⟩

/-- C2 amended: when metrics are enabled and the metric sub-provider fails
to initialize, the already-constructed log sub-provider is torn down first
and the trace sub-provider second (log then trace, in that order), and the
original metric error is returned; both teardown results are discarded, so
no teardown error can mask it, whatever the two sub-providers' shutdown
behaviours are. -/
theorem newProvider_metric_failure {ε : Type} (env : SetupEnv ε)
    (logP traceP : Option ε) (e : ε)
    (hl : env.logSetup = Except.ok logP) (ht : env.traceSetup = Except.ok traceP)
    (hm : env.metricSetup = Except.error e) :
    NewProvider true env
      = ([ProvEvent.logShutdown, ProvEvent.traceShutdown], Except.error e) := by
  simp [NewProvider, hl, ht, hm]

/-- C2 amended witness: an environment whose log and trace sub-providers
would themselves fail to shut down, and a failing metric setup; the metric
error is still the one returned. -/
theorem newProvider_metric_failure_witness :
    NewProvider true ({ logSetup := Except.ok (some 3), traceSetup := Except.ok (some 4),
                        metricSetup := Except.error 7 } : SetupEnv Nat)
      = ([ProvEvent.logShutdown, ProvEvent.traceShutdown], Except.error 7) :=
  newProvider_metric_failure
    { logSetup := Except.ok (some 3), traceSetup := Except.ok (some 4),
      metricSetup := Except.error 7 }
    (some 3) (some 4) 7 rfl rfl rfl

/-- Count of each teardown event one Shutdown call emits: one per present
sub-provider, none for an absent one, whatever the teardown results
are. -/
theorem provider_shutdown_counts {ε : Type} (p : Provider ε) :
    (Provider.Shutdown p).1.count ProvEvent.metricShutdown
      = (if p.metricProvider.isSome then 1 else 0) ∧
    (Provider.Shutdown p).1.count ProvEvent.traceShutdown
      = (if p.traceProvider.isSome then 1 else 0) ∧
    (Provider.Shutdown p).1.count ProvEvent.logShutdown
      = (if p.logProvider.isSome then 1 else 0) := by
  obtain ⟨m, t, l⟩ := p
  cases m <;> cases t <;> cases l <;>
    simp [Provider.Shutdown, List.count_append, List.count_cons, List.count_nil]

/-- Shutdown returns nil exactly when every present sub-provider's
teardown succeeded on that call. -/
theorem provider_shutdown_none_iff {ε : Type} (p : Provider ε) :
    (Provider.Shutdown p).2 = none ↔
      (∀ m, p.metricProvider = some m → m = none) ∧
      (∀ t, p.traceProvider = some t → t = none) ∧
      (∀ l, p.logProvider = some l → l = none) := by
  obtain ⟨m, t, l⟩ := p
  rcases m with _ | (_ | em) <;> rcases t with _ | (_ | et) <;>
    rcases l with _ | (_ | el) <;> simp [Provider.Shutdown]

/-- C3 counterexample: a run in which every teardown succeeds on the first
call but the stateful metric sub-provider fails its second Shutdown: the
first call returns nil, the second call returns a non-nil aggregate (so it
is neither nil nor the first call's result), and the metric
sub-provider's Shutdown is invoked twice across the two calls — refuting
both halves of the idempotence claim. -/
theorem provider_idempotent_shutdown_cex :
    (Provider.shutdownTwice (⟨some none, some none, some none⟩ : Provider Nat)
        ⟨some (some 7), some none, some none⟩).2.1 = none ∧
    (Provider.shutdownTwice (⟨some none, some none, some none⟩ : Provider Nat)
        ⟨some (some 7), some none, some none⟩).2.2 = some [7] ∧
    (Provider.shutdownTwice (⟨some none, some none, some none⟩ : Provider Nat)
        ⟨some (some 7), some none, some none⟩).1.count
        ProvEvent.metricShutdown = 2 := by
  decide

/-- C3 amended: a second Shutdown call on the same provider is not a
no-op and need not return nil: the Go method keeps no state, so the
second call re-executes the identical teardown over the same pointers,
invoking each present sub-provider's Shutdown once more (twice across the
two calls, and never for an absent one), and returns the aggregate of
whatever results the stateful sub-providers produce on that second call —
nil exactly when all of the second call's teardowns succeed. -/
theorem provider_shutdown_second_call {ε : Type} (first second : Provider ε)
    (hm : second.metricProvider.isSome = first.metricProvider.isSome)
    (ht : second.traceProvider.isSome = first.traceProvider.isSome)
    (hl : second.logProvider.isSome = first.logProvider.isSome) :
    (Provider.shutdownTwice first second).1.count ProvEvent.metricShutdown
      = (if first.metricProvider.isSome then 2 else 0) ∧
    (Provider.shutdownTwice first second).1.count ProvEvent.traceShutdown
      = (if first.traceProvider.isSome then 2 else 0) ∧
    (Provider.shutdownTwice first second).1.count ProvEvent.logShutdown
      = (if first.logProvider.isSome then 2 else 0) ∧
    ((Provider.shutdownTwice first second).2.2 = none ↔
      (∀ m, second.metricProvider = some m → m = none) ∧
      (∀ t, second.traceProvider = some t → t = none) ∧
      (∀ l, second.logProvider = some l → l = none)) := by
  have c1 := provider_shutdown_counts first
  have c2 := provider_shutdown_counts second
  refine ⟨?_, ?_, ?_, provider_shutdown_none_iff second⟩
  · show ((Provider.Shutdown first).1 ++ (Provider.Shutdown second).1).count
        ProvEvent.metricShutdown = _
    rw [List.count_append, c1.1, c2.1, hm]
    cases first.metricProvider.isSome <;> simp
  · show ((Provider.Shutdown first).1 ++ (Provider.Shutdown second).1).count
        ProvEvent.traceShutdown = _
    rw [List.count_append, c1.2.1, c2.2.1, ht]
    cases first.traceProvider.isSome <;> simp
  · show ((Provider.Shutdown first).1 ++ (Provider.Shutdown second).1).count
        ProvEvent.logShutdown = _
    rw [List.count_append, c1.2.2, c2.2.2, hl]
    cases first.logProvider.isSome <;> simp

/-- C3 amended witness: a provider whose metric and log sub-providers
fail only their second teardown, instantiating the second-call theorem
with the pointer-presence hypotheses discharged concretely. -/
theorem provider_shutdown_second_call_witness :
    (Provider.shutdownTwice (⟨some none, some none, some none⟩ : Provider Nat)
        ⟨some (some 2), some none, some (some 5)⟩).1.count ProvEvent.metricShutdown
      = (if (⟨some none, some none, some none⟩ : Provider Nat).metricProvider.isSome
         then 2 else 0) ∧
    (Provider.shutdownTwice (⟨some none, some none, some none⟩ : Provider Nat)
        ⟨some (some 2), some none, some (some 5)⟩).1.count ProvEvent.traceShutdown
      = (if (⟨some none, some none, some none⟩ : Provider Nat).traceProvider.isSome
         then 2 else 0) ∧
    (Provider.shutdownTwice (⟨some none, some none, some none⟩ : Provider Nat)
        ⟨some (some 2), some none, some (some 5)⟩).1.count ProvEvent.logShutdown
      = (if (⟨some none, some none, some none⟩ : Provider Nat).logProvider.isSome
         then 2 else 0) ∧
    ((Provider.shutdownTwice (⟨some none, some none, some none⟩ : Provider Nat)
        ⟨some (some 2), some none, some (some 5)⟩).2.2 = none ↔
      (∀ m, (⟨some (some 2), some none, some (some 5)⟩ : Provider Nat).metricProvider
          = some m → m = none) ∧
      (∀ t, (⟨some (some 2), some none, some (some 5)⟩ : Provider Nat).traceProvider
          = some t → t = none) ∧
      (∀ l, (⟨some (some 2), some none, some (some 5)⟩ : Provider Nat).logProvider
          = some l → l = none)) :=
  provider_shutdown_second_call
    ⟨some none, some none, some none⟩ ⟨some (some 2), some none, some (some 5)⟩
    rfl rfl rfl

/-! Helper lemmas about the task-group model. -/

theorem runGroup_invoked {α ε : Type} (items : List α) (fn : α → Option ε) :
    ∀ g : Group α ε, (runGroup g items fn).invoked = g.invoked ++ items := by
  induction items with
  | nil =>
    intro g
    simp [runGroup]
  | cons i rest ih =>
    intro g
    rw [runGroup, ih]
    simp [Group.go]

theorem runGroup_firstErr {α ε : Type} (items : List α) (fn : α → Option ε) :
    ∀ g : Group α ε, (runGroup g items fn).firstErr
      = match g.firstErr with
        | some e => some e
        | none => items.findSome? fn := by
  induction items with
  | nil =>
    intro g
    cases hg : g.firstErr <;> simp [runGroup, hg]
  | cons i rest ih =>
    intro g
    rw [runGroup, ih]
    cases hg : g.firstErr with
    | some e => simp [Group.go, hg]
    | none =>
      cases hi : fn i with
      | some e => simp [Group.go, hg, hi, List.findSome?_cons]
      | none => simp [Group.go, hg, hi, List.findSome?_cons]

/-- C7: GoForEach invokes each per-item function exactly once (its
invocation list is the item list itself, so for N items all N functions
run once each); its returned error is nil exactly when every per-item
function returned nil; and whenever it returns an error, that error is one
returned by a failing item. -/
theorem goForEach_spec {α ε : Type} (items : List α) (fn : α → Option ε) :
    (GoForEach items fn).invoked = items ∧
    ((GoForEach items fn).wait = none ↔ ∀ i ∈ items, fn i = none) ∧
    ∀ e, (GoForEach items fn).wait = some e → ∃ i ∈ items, fn i = some e := by
  have hi := runGroup_invoked items fn { invoked := [], firstErr := none }
  have hf := runGroup_firstErr items fn { invoked := [], firstErr := none }
  have hw : (GoForEach items fn).wait = items.findSome? fn := by
    simpa [GoForEach, Group.wait] using hf
  refine ⟨by simpa [GoForEach] using hi, ?_, ?_⟩
  · rw [hw]
    exact List.findSome?_eq_none_iff
  · intro e he
    rw [hw] at he
    exact List.exists_of_findSome?_eq_some he

/-- C7 witness: a three-item fan-out whose middle item fails with error 9,
instantiating the fan-out theorem; all three items are invoked and the
returned error comes from the failing item. -/
theorem goForEach_spec_witness :
    (GoForEach [1, 2, 3] (fun n => if n = 2 then some 9 else (none : Option Nat))).invoked
      = [1, 2, 3] ∧
    ∃ i ∈ [1, 2, 3], (fun n => if n = 2 then some 9 else (none : Option Nat)) i = some 9 :=
  ⟨(goForEach_spec [1, 2, 3] (fun n => if n = 2 then some 9 else (none : Option Nat))).1,
   (goForEach_spec [1, 2, 3] (fun n => if n = 2 then some 9 else (none : Option Nat))).2.2
     9 (by decide)⟩

/-- C8 counterexample: with the bound -1, GoWithLimit and
GoWithLimitAndSpan return no configuration error: the single task is
launched and invoked and the combinators succeed, refuting the claim that
a non-positive bound fails fast before any task is launched. -/
theorem goWithLimit_validation_cex :
    GoWithLimit (-1) [(0 : Nat)] (fun _ => (none : Option Nat))
      = some { invoked := [0], firstErr := none } ∧
    GoWithLimitAndSpan "w" (-1) [(0 : Nat)] (fun _ => (none : Option Nat))
      = some { invoked := [(0, 0)], firstErr := none } := by
  constructor
  · rfl
  · rfl

/-- C8 amended: neither GoWithLimit nor GoWithLimitAndSpan validates the
bound, and no configuration error is ever produced: a negative bound is
handed to SetLimit, which treats it as no limit, so every task runs
normally (GoWithLimit then coincides with GoForEach); a bound of zero with
a non-empty item list makes the call block forever instead of failing
fast. -/
theorem goWithLimit_no_validation {α ε : Type} (name : String) (concurrency : Int)
    (items : List α) (fn : α → Option ε) (hneg : concurrency < 0) :
    GoWithLimit concurrency items fn = some (GoForEach items fn) ∧
    (GoWithLimitAndSpan name concurrency items fn).isSome = true ∧
    (items.isEmpty = false → GoWithLimit 0 items fn = none) := by
  have hz : ¬ concurrency = 0 := by omega
  refine ⟨?_, ?_, ?_⟩
  · simp [GoWithLimit, GoForEach, hz]
  · simp [GoWithLimitAndSpan, hz]
  · intro hne
    simp [GoWithLimit, hne]

/-- C8 amended witness: the bound -2 runs the one-item fan-out normally,
and the bound 0 on the same non-empty item list never returns. -/
theorem goWithLimit_no_validation_witness :
    GoWithLimit (-2) [(1 : Nat)] (fun _ => (none : Option Nat))
      = some (GoForEach [(1 : Nat)] (fun _ => (none : Option Nat))) ∧
    GoWithLimit 0 [(1 : Nat)] (fun _ => (none : Option Nat)) = none :=
  ⟨(goWithLimit_no_validation "s" (-2) [(1 : Nat)] (fun _ => none) (by decide)).1,
   (goWithLimit_no_validation "s" (-2) [(1 : Nat)] (fun _ => none) (by decide)).2.2 rfl⟩

/-- C9: WithSpan closes the created scope exactly once on every exit path
of the work function, whether it returns nil, returns an error, or
panics: after the call the span-start and span-end event counts are equal
(both one), and the work's outcome is returned, or propagated for a
panic, unchanged. -/
theorem withSpan_scope_closed {ε : Type} (name : String) (work : Outcome ε) :
    ((WithSpan name work).1.countP
        (fun ev => match ev with | SpanEvent.spanStart _ => true | _ => false))
      = ((WithSpan name work).1.countP
        (fun ev => match ev with | SpanEvent.spanEnd _ => true | _ => false)) ∧
    ((WithSpan name work).1.countP
        (fun ev => match ev with | SpanEvent.spanEnd _ => true | _ => false)) = 1 ∧
    (WithSpan name work).2 = work := by
  cases work <;> simp [WithSpan, List.countP_cons, List.countP_nil]

/-- C10: TraceProvider.Shutdown is fail-fast within the trace stage: when
the wrapped SDK tracer provider's Shutdown returns an error, that error is
returned at once and the exporter cleanup chain is never invoked for that
call. -/
theorem traceProvider_shutdown_fail_fast {ε : Type} (tp : TraceProvider ε) (e : ε)
    (h : tp.providerShutdown = some e) :
    TraceProvider.Shutdown tp = ([TPEvent.sdkShutdownCall], some e) ∧
    TPEvent.cleanupCall ∉ (TraceProvider.Shutdown tp).1 := by
  constructor
  · simp [TraceProvider.Shutdown, h]
  · simp [TraceProvider.Shutdown, h]

/-- C10 witness: a trace provider with a stored cleanup chain whose SDK
shutdown fails with error 5; the cleanup chain is not invoked. -/
theorem traceProvider_shutdown_fail_fast_witness :
    TraceProvider.Shutdown
        ({ providerShutdown := some 5, cleanup := some none } : TraceProvider Nat)
      = ([TPEvent.sdkShutdownCall], some 5) ∧
    TPEvent.cleanupCall ∉
      (TraceProvider.Shutdown
        ({ providerShutdown := some 5, cleanup := some none } : TraceProvider Nat)).1 :=
  traceProvider_shutdown_fail_fast
    { providerShutdown := some 5, cleanup := some none } 5 rfl

end Optl
